import Mathlib

/-!
Shallow embedding of the delegation client of
`google_adk/translation_orchestrator_agent/a2a_translation_tools.py`.

The remote agent (network transport included) is modelled as an oracle
`RemoteBehavior`: the response to the single send-message request, and a
stream of responses to the successive get-task polls.  The unbounded
`while True` poll loop is modelled with explicit fuel: a `none` result
means the loop did not decide within the given fuel.  The function also
produces a trace of observable events (`wait` for each `asyncio.sleep(1)`,
`pollReq` for each get-task request).
-/

namespace A2ATools

/-- Content part of an artifact or message, as consumed by the client:
the tagged union of text, file-by-reference and file-by-value parts. -/
inductive Part
  | text (t : String)
  | fileByRef (uri mimeType : String)
  | fileByValue (bytes mimeType : String)
deriving DecidableEq, Repr

/-- Artifact produced by a task: an ordered list of content parts. -/
structure Artifact where
  parts : List Part
deriving DecidableEq, Repr

/-- Task state enumeration used by the client. -/
inductive TaskState
  | submitted
  | working
  | completed
  | failed
  | canceled
  | rejected
deriving DecidableEq, Repr

/-- Error object attached to a task status (`task.status.error`). -/
structure TaskStatusError where
  message : String
deriving DecidableEq, Repr

/-- Status of a task: its state and an optional error object. -/
structure TaskStatus where
  state : TaskState
  error : Option TaskStatusError
deriving DecidableEq, Repr

/-- Task as observed by the client: id, status, artifacts.  A missing
artifact list (`None` in Python) is identified with the empty list: the
code only tests truthiness (`if task.artifacts:`), on which the two agree. -/
structure Task where
  id : String
  status : TaskStatus
  artifacts : List Artifact
deriving DecidableEq, Repr

/-- Message envelope (role, parts, message id), as appearing in a
send-message success response that wraps a Message rather than a Task. -/
structure Message where
  role : String
  parts : List Part
  messageId : String
deriving DecidableEq, Repr

/-- Possible outcomes of the send-message request, from the client code
point of view: success wrapping a Task, success wrapping a Message,
a JSON-RPC error response, any other unexpected shape, or a transport
exception raised during the call. -/
inductive SendResponse
  | successTask (t : Task)
  | successMessage (m : Message)
  | rpcError (message : String)
  | other
  | raised (e : String)
deriving DecidableEq, Repr

/-- Possible outcomes of one get-task poll request: success wrapping a
Task, a JSON-RPC error response, any other unexpected shape (including a
success response whose result is not a Task), or a transport exception
raised during the poll. -/
inductive PollResponse
  | successTask (t : Task)
  | rpcError (message : String)
  | other
  | raised (e : String)
deriving DecidableEq, Repr

/-- Oracle for everything on the far side of the network: the send
response and the stream of poll responses (the i-th poll gets `polls i`). -/
structure RemoteBehavior where
  send : SendResponse
  polls : Nat → PollResponse

/-- Observable events of one call: a 1-second wait, or one get-task
request issued. -/
inductive Event
  | wait
  | pollReq
deriving DecidableEq, Repr

/-- First text part of a list of parts, in list order
(the inner `for part in artifact.parts` loop with its
`isinstance(part.root, TextPart)` test). -/
def firstTextPart : List Part → Option String
  | [] => none
  | Part.text t :: _ => some t
  | _ :: rest => firstTextPart rest

/-- First text part over the artifacts in list order (the
`for artifact in task.artifacts` loop; the `if artifact.parts:`
truthiness guard is absorbed since iterating an empty list finds
nothing). -/
def extractFromArtifacts : List Artifact → Option String
  | [] => none
  | a :: rest =>
    match firstTextPart a.parts with
    | some t => some t
    | none => extractFromArtifacts rest

/-- Error message chosen for a failure-terminal task:
`task.status.error.message if task.status.error else "Task failed without specific error."`. -/
def errMsgOf (st : TaskStatus) : String :=
  match st.error with
  | some e => e.message
  | none => "Task failed without specific error."

/-- One iteration body of the poll loop, lines 77-96 of the source:
`some s` means the loop returns `s`; `none` means the state is
non-terminal and the loop continues. -/
def handlePoll (agent_id : String) (r : PollResponse) : Option String :=
  match r with
  | PollResponse.successTask task =>
    if task.status.state = TaskState.completed then
      some (match extractFromArtifacts task.artifacts with
            | some txt => txt
            | none => "Task completed but no text artifact found.")
    else if task.status.state = TaskState.failed ∨
            task.status.state = TaskState.canceled ∨
            task.status.state = TaskState.rejected then
      some (agent_id ++ " task failed: " ++ errMsgOf task.status)
    else
      none
  | PollResponse.rpcError m => some ("Error polling " ++ agent_id ++ " task: " ++ m)
  | PollResponse.other => some ("Unexpected polling response from " ++ agent_id ++ ".")
  | PollResponse.raised e => some ("Exception calling " ++ agent_id ++ ": " ++ e)

/-- The `while True` poll loop (lines 73-96), with fuel.  Each iteration
first waits (`asyncio.sleep(1)`) then issues one get-task request; a
decisive response ends the loop with its string, otherwise the loop
continues on the shifted poll stream.  Returns the result (or `none`
when the fuel ran out before a decision) and the event trace. -/
def pollLoopT (agent_id : String) (polls : Nat → PollResponse) : Nat → Option String × List Event
  | 0 => (none, [])
  | fuel + 1 =>
    match handlePoll agent_id (polls 0) with
    | some s => (some s, [Event.wait, Event.pollReq])
    | none =>
      let rest := pollLoopT agent_id (fun n => polls (n + 1)) fuel
      (rest.1, Event.wait :: Event.pollReq :: rest.2)

/-- The delegation client `_call_a2a_agent(agent_url, agent_id, message_text)`,
against a remote behavior `b`, with `fuel` bounding the observed poll
iterations.  `agent_url` and `message_text` shape only the outbound
request (absorbed into the oracle) and never the returned string.
Mirrors lines 59-100 of the source:
a send success wrapping a Task with a truthy (non-empty) id enters the
poll loop; a send success wrapping a Task with an empty id skips the
loop and falls through to the final `return` of line 100; a JSON-RPC
error returns its message; any other response shape (a success wrapping
a Message included) returns the fixed unexpected-response string; a
raised exception is caught and converted to a string. -/
def callA2AAgentT (agent_url agent_id message_text : String) (b : RemoteBehavior)
    (fuel : Nat) : Option String × List Event :=
  match b.send with
  | SendResponse.successTask t =>
    if t.id = "" then
      (some ("Failed to get response from " ++ agent_id ++ "."), [])
    else
      pollLoopT agent_id b.polls fuel
  | SendResponse.successMessage _ =>
    (some ("Unexpected response from " ++ agent_id ++ "."), [])
  | SendResponse.rpcError m =>
    (some ("Error calling " ++ agent_id ++ ": " ++ m), [])
  | SendResponse.other =>
    (some ("Unexpected response from " ++ agent_id ++ "."), [])
  | SendResponse.raised e =>
    (some ("Exception calling " ++ agent_id ++ ": " ++ e), [])

/-- Result-only view of the delegation client call. -/
def callA2AAgent (agent_url agent_id message_text : String) (b : RemoteBehavior)
    (fuel : Nat) : Option String :=
  (callA2AAgentT agent_url agent_id message_text b fuel).1

/-- Module-level endpoint constants of the source file. -/
def SPANISH_AGENT_URL : String := "http://localhost:10010"

/-- Spanish sub-agent identifier constant. -/
def SPANISH_AGENT_ID : String := "spanish_translator"

/-- French sub-agent endpoint constant. -/
def FRENCH_AGENT_URL : String := "http://localhost:10011"

/-- French sub-agent identifier constant. -/
def FRENCH_AGENT_ID : String := "french_translator"

/-- Brave Search sub-agent endpoint constant. -/
def BRAVE_SEARCH_AGENT_URL : String := "http://localhost:10009"

/-- Brave Search sub-agent identifier constant. -/
def BRAVE_SEARCH_AGENT_ID : String := "mcp_brave_search_agent_adk"

/-- Environment: the remote behavior observed for a delegation, as a
function of the target url, the target id and the message text sent. -/
def Env : Type := String → String → String → RemoteBehavior

/-- One delegation through the environment: call the agent at `url` with
identifier `id` and payload `text`, against the behavior the environment
assigns to that request. -/
def callViaEnv (env : Env) (url id text : String) (fuel : Nat) : Option String :=
  callA2AAgent url id text (env url id text) fuel

/-- Python `s.startswith(p)`: p is a prefix of s (charwise). -/
def pyStartsWith (s p : String) : Bool := p.data.isPrefixOf s.data

/-- Python `s.lower()`: charwise lower-casing. -/
def pyLower (s : String) : String := String.mk (s.data.map Char.toLower)

/-- Python `s.upper()`: charwise upper-casing (used only by stub agents). -/
def pyUpper (s : String) : String := String.mk (s.data.map Char.toUpper)

/-- Python dict lookup with default (`d.get(k, default)`), for the
string-valued dictionaries the tool functions return. -/
def dictGet (d : List (String × String)) (k dflt : String) : String :=
  match d.find? (fun p => p.1 == k) with
  | some p => p.2
  | none => dflt

/-- The tool `translate_to_spanish_function(text_to_translate, original_user_query)`:
one delegation to the Spanish agent, wrapped as `{"translated_text": ...}`.
`none` when the underlying call does not decide within the fuel. -/
def translate_to_spanish_function (env : Env) (fuel : Nat)
    (text_to_translate original_user_query : String) : Option (List (String × String)) :=
  match callViaEnv env SPANISH_AGENT_URL SPANISH_AGENT_ID text_to_translate fuel with
  | none => none
  | some translation => some [("translated_text", translation)]

/-- The tool `translate_to_french_function(text_to_translate, original_user_query)`:
one delegation to the French agent, wrapped as `{"translated_text": ...}`. -/
def translate_to_french_function (env : Env) (fuel : Nat)
    (text_to_translate original_user_query : String) : Option (List (String × String)) :=
  match callViaEnv env FRENCH_AGENT_URL FRENCH_AGENT_ID text_to_translate fuel with
  | none => none
  | some translation => some [("translated_text", translation)]

/-- The tool `search_and_translate_news_function(search_query, target_language,
original_user_query)` (lines 145-184): delegate to the Brave Search agent,
reject results starting with "Error"/"Unexpected"/"Failed", wrap the rest
in the fixed template, then delegate to the Spanish or French translation
function according to `target_language.lower()`, and return
`{"translated_news": translation_result.get("translated_text", "Translation failed.")}`. -/
def search_and_translate_news_function (env : Env) (fuel : Nat)
    (search_query target_language original_user_query : String) :
    Option (List (String × String)) :=
  match callViaEnv env BRAVE_SEARCH_AGENT_URL BRAVE_SEARCH_AGENT_ID search_query fuel with
  | none => none
  | some search_results =>
    if pyStartsWith search_results "Error" || pyStartsWith search_results "Unexpected" ||
        pyStartsWith search_results "Failed" then
      some [("translated_news", "Failed to get news: " ++ search_results)]
    else
      let text_to_translate :=
        "News results for \x27" ++ search_query ++ "\x27: " ++ search_results
      if pyLower target_language = "spanish" then
        match translate_to_spanish_function env fuel text_to_translate original_user_query with
        | none => none
        | some translation_result =>
          some [("translated_news", dictGet translation_result "translated_text" "Translation failed.")]
      else if pyLower target_language = "french" then
        match translate_to_french_function env fuel text_to_translate original_user_query with
        | none => none
        | some translation_result =>
          some [("translated_news", dictGet translation_result "translated_text" "Translation failed.")]
      else
        some [("translated_news",
          "Unsupported translation language: " ++ target_language ++
          ". Only Spanish and French are supported.")]

/-- Remote behavior of a simple stub agent: the send request creates a
task, and every poll reports that task completed with a single artifact
holding a single text part `s`. -/
def stubBehavior (s : String) : RemoteBehavior where
  send := SendResponse.successTask
    { id := "task-1", status := { state := TaskState.submitted, error := none }, artifacts := [] }
  polls := fun _ => PollResponse.successTask
    { id := "task-1", status := { state := TaskState.completed, error := none },
      artifacts := [{ parts := [Part.text s] }] }

/-- Stub environment for the chained search-and-translate scenario: the
Brave Search agent answers "AI breakthroughs", every other agent answers
with the uppercased message text it was sent. -/
def chainStubEnv : Env := fun url _ text =>
  if url = BRAVE_SEARCH_AGENT_URL then stubBehavior "AI breakthroughs"
  else stubBehavior (pyUpper text)

/-- A task in the `working` state, as reported by a still-running remote. -/
def workingTask : Task :=
  { id := "task-1", status := { state := TaskState.working, error := none }, artifacts := [] }

/-- A freshly created task, as wrapped in a send-message success response. -/
def createdTask : Task :=
  { id := "task-1", status := { state := TaskState.submitted, error := none }, artifacts := [] }

/-- Remote behavior whose send response wraps a Message (not a Task)
holding a text part "hi". -/
def msgBehavior : RemoteBehavior where
  send := SendResponse.successMessage
    { role := "agent", parts := [Part.text "hi"], messageId := "m1" }
  polls := fun _ => PollResponse.other

/-- Remote behavior whose task completes at once with a single text part
that is the empty string. -/
def emptyTextBehavior : RemoteBehavior where
  send := SendResponse.successTask createdTask
  polls := fun _ => PollResponse.successTask
    { id := "task-1", status := { state := TaskState.completed, error := none },
      artifacts := [{ parts := [Part.text ""] }] }

/-- Remote behavior whose task completes at once, the first artifact
holding a file part before the text part "Bonjour", a second artifact
holding a later text part. -/
def bonjourBehavior : RemoteBehavior where
  send := SendResponse.successTask createdTask
  polls := fun _ => PollResponse.successTask
    { id := "task-1", status := { state := TaskState.completed, error := none },
      artifacts :=
        [{ parts := [Part.fileByRef "http://files/x" "text/plain", Part.text "Bonjour"] },
         { parts := [Part.text "later text"] }] }

/-- Remote behavior whose task fails at once with error message
"quota exceeded". -/
def quotaFailBehavior : RemoteBehavior where
  send := SendResponse.successTask createdTask
  polls := fun _ => PollResponse.successTask
    { id := "task-1",
      status := { state := TaskState.failed, error := some { message := "quota exceeded" } },
      artifacts := [] }

/-- Remote behavior whose first poll sees a working task and whose second
poll hits a JSON-RPC error response. -/
def pollErrorBehavior : RemoteBehavior where
  send := SendResponse.successTask createdTask
  polls := fun n => if n = 0 then PollResponse.successTask workingTask
                    else PollResponse.rpcError "boom"

/-- Remote behavior whose task reports `working` on every poll, forever. -/
def workingForeverBehavior : RemoteBehavior where
  send := SendResponse.successTask createdTask
  polls := fun _ => PollResponse.successTask workingTask

/-- Remote behavior whose task is working on the first two polls and
completed with the single text part "Hola" on the third. -/
def holaBehavior : RemoteBehavior where
  send := SendResponse.successTask createdTask
  polls := fun n =>
    if n < 2 then PollResponse.successTask workingTask
    else PollResponse.successTask
      { id := "task-1", status := { state := TaskState.completed, error := none },
        artifacts := [{ parts := [Part.text "Hola"] }] }

/-- Environment whose Brave Search agent returns a genuine news result
that happens to begin with the word "Failed"; translators echo their
input. -/
def failedNewsEnv : Env := fun url _ text =>
  if url = BRAVE_SEARCH_AGENT_URL then stubBehavior "Failed banks recover"
  else stubBehavior text

/-- Appending to a non-empty string yields a non-empty string. -/
theorem string_append_ne_empty (a b : String) (h : a ≠ "") : a ++ b ≠ "" := by
  intro hab
  apply h
  have hd : a.data ++ b.data = [] := by
    have hc := congrArg String.data hab
    simpa [String.data_append] using hc
  have ha : a.data = [] := (List.append_eq_nil.mp hd).1
  exact String.ext (ha.trans rfl)

/-- Appending a non-empty string yields a non-empty string. -/
theorem string_append_ne_empty_r (a b : String) (h : b ≠ "") : a ++ b ≠ "" := by
  intro hab
  apply h
  have hd : a.data ++ b.data = [] := by
    have hc := congrArg String.data hab
    simpa [String.data_append] using hc
  have hb : b.data = [] := (List.append_eq_nil.mp hd).2
  exact String.ext (hb.trans rfl)

/-- The first text part of a concatenation is the first text part of the
left list, else of the right list. -/
theorem firstTextPart_append (xs ys : List Part) :
    firstTextPart (xs ++ ys) =
      match firstTextPart xs with
      | some t => some t
      | none => firstTextPart ys := by
  induction xs with
  | nil => simp [firstTextPart]
  | cons p rest ih =>
    cases p with
    | text t => simp [firstTextPart]
    | fileByRef uri mt => simpa [firstTextPart] using ih
    | fileByValue bs mt => simpa [firstTextPart] using ih

/-- The nested artifact/part scan equals the first text part of the
flattened, order-preserving list of all parts. -/
theorem extractFromArtifacts_eq_flatten (l : List Artifact) :
    extractFromArtifacts l = firstTextPart (List.flatten (l.map Artifact.parts)) := by
  induction l with
  | nil => simp [extractFromArtifacts, firstTextPart]
  | cons a rest ih =>
    simp only [extractFromArtifacts, List.map_cons, List.flatten_cons, firstTextPart_append, ih]

/-- A poll that sees the task in a non-terminal state is not decisive. -/
theorem handlePoll_nonterminal (agent_id : String) (t : Task)
    (h : t.status.state = TaskState.submitted ∨ t.status.state = TaskState.working) :
    handlePoll agent_id (PollResponse.successTask t) = none := by
  rcases h with h | h <;> simp [handlePoll, h]

/-- If the polls before index `i` are not decisive and poll `i` is
decisive with string `s`, the loop with more than `i` fuel returns `s`
after exactly `i + 1` wait-and-poll rounds. -/
theorem pollLoopT_decides (agent_id : String) :
    ∀ (i : Nat) (polls : Nat → PollResponse) (s : String),
      (∀ j, j < i → handlePoll agent_id (polls j) = none) →
      handlePoll agent_id (polls i) = some s →
      ∀ fuel, i < fuel →
        pollLoopT agent_id polls fuel =
          (some s, List.flatten (List.replicate (i + 1) [Event.wait, Event.pollReq])) := by
  intro i
  induction i with
  | zero =>
    intro polls s hb hi fuel hf
    match fuel, hf with
    | f + 1, _ => simp [pollLoopT, hi]
  | succ i ih =>
    intro polls s hb hi fuel hf
    match fuel, hf with
    | f + 1, hf =>
      have h0 : handlePoll agent_id (polls 0) = none := hb 0 (Nat.succ_pos i)
      have hrest := ih (fun n => polls (n + 1)) s
        (fun j hj => hb (j + 1) (Nat.succ_lt_succ hj)) hi f (Nat.lt_of_succ_lt_succ hf)
      simp [pollLoopT, h0, hrest, List.replicate_succ]

/-- If no poll is ever decisive, the loop never returns, whatever the fuel. -/
theorem pollLoopT_never_decides (agent_id : String) :
    ∀ (fuel : Nat) (polls : Nat → PollResponse),
      (∀ i, handlePoll agent_id (polls i) = none) →
      (pollLoopT agent_id polls fuel).1 = none := by
  intro fuel
  induction fuel with
  | zero => intro polls h; simp [pollLoopT]
  | succ f ih =>
    intro polls h
    have h0 := h 0
    simpa [pollLoopT, h0] using ih (fun n => polls (n + 1)) (fun i => h (i + 1))

/-- Every string the poll loop can return is non-empty, or is the verbatim
text extracted from a completed task seen at some poll. -/
theorem pollLoopT_nonempty_or_extracted (agent_id : String) :
    ∀ (fuel : Nat) (polls : Nat → PollResponse) (s : String),
      (pollLoopT agent_id polls fuel).1 = some s →
      s ≠ "" ∨ ∃ i t, polls i = PollResponse.successTask t ∧
        t.status.state = TaskState.completed ∧ extractFromArtifacts t.artifacts = some s := by
  intro fuel
  induction fuel with
  | zero => intro polls s h; simp [pollLoopT] at h
  | succ f ih =>
    intro polls s h
    simp only [pollLoopT] at h
    cases hp : handlePoll agent_id (polls 0) with
    | some s0 =>
      rw [hp] at h
      simp only at h
      cases h
      cases h0 : polls 0 with
      | successTask t =>
        rw [h0] at hp
        simp only [handlePoll] at hp
        by_cases hc : t.status.state = TaskState.completed
        · rw [if_pos hc] at hp
          cases he : extractFromArtifacts t.artifacts with
          | some txt =>
            rw [he] at hp
            cases hp
            exact Or.inr ⟨0, t, h0, hc, he⟩
          | none =>
            rw [he] at hp
            cases hp
            exact Or.inl (by decide)
        · rw [if_neg hc] at hp
          by_cases hfail : t.status.state = TaskState.failed ∨
              t.status.state = TaskState.canceled ∨ t.status.state = TaskState.rejected
          · rw [if_pos hfail] at hp
            cases hp
            exact Or.inl (string_append_ne_empty _ _
              (string_append_ne_empty_r _ _ (by decide)))
          · rw [if_neg hfail] at hp
            cases hp
      | rpcError m =>
        rw [h0] at hp
        simp only [handlePoll] at hp
        cases hp
        exact Or.inl (string_append_ne_empty _ _
          (string_append_ne_empty_r _ _ (by decide)))
      | other =>
        rw [h0] at hp
        simp only [handlePoll] at hp
        cases hp
        exact Or.inl (string_append_ne_empty_r _ _ (by decide))
      | raised e =>
        rw [h0] at hp
        simp only [handlePoll] at hp
        cases hp
        exact Or.inl (string_append_ne_empty _ _
          (string_append_ne_empty_r _ _ (by decide)))
    | none =>
      rw [hp] at h
      simp only at h
      rcases ih (fun n => polls (n + 1)) s h with hne | ⟨i, t, h1, h2, h3⟩
      · exact Or.inl hne
      · exact Or.inr ⟨i + 1, t, h1, h2, h3⟩

/-- Each round of the decided loop trace holds exactly one poll request. -/
theorem trace_pollReq_count (n : Nat) :
    (List.flatten (List.replicate n [Event.wait, Event.pollReq])).count Event.pollReq = n := by
  induction n with
  | zero => simp
  | succ k ih => simp [List.replicate_succ, List.count_cons, ih]

/-- Claim C1, counterexample: for a send-message success response wrapping
a Message whose first text part is "hi", `_call_a2a_agent` does not return
"hi"; it returns the fixed unexpected-response string. -/
theorem c1_counterexample :
    msgBehavior.send = SendResponse.successMessage
      { role := "agent", parts := [Part.text "hi"], messageId := "m1" } ∧
    firstTextPart [Part.text "hi"] = some "hi" ∧
    callA2AAgent "http://localhost:10010" "spanish_translator" "hello" msgBehavior 1 =
      some "Unexpected response from spanish_translator." ∧
    callA2AAgent "http://localhost:10010" "spanish_translator" "hello" msgBehavior 1 ≠
      some "hi" := by
  refine ⟨rfl, rfl, rfl, by decide⟩

/-- Claim C1, amended: a send-message success response wrapping a Message
(no Task created) always yields the fixed string
"Unexpected response from (agent_id)." — the Message's parts are never
examined — and no poll is ever issued. -/
theorem c1_message_response_is_unexpected (agent_url agent_id message_text : String)
    (m : Message) (polls : Nat → PollResponse) (fuel : Nat) :
    callA2AAgentT agent_url agent_id message_text
        { send := SendResponse.successMessage m, polls := polls } fuel =
      (some ("Unexpected response from " ++ agent_id ++ "."), []) := rfl

/-- Claim C2, counterexample: a remote whose task completes with a single
text part that is the empty string makes `_call_a2a_agent` return the
empty string, so the returned string is not always non-empty. -/
theorem c2_counterexample :
    callA2AAgent "http://localhost:10010" "spanish_translator" "hello" emptyTextBehavior 1 =
      some "" := rfl

/-- Claim C2, amended: whenever `_call_a2a_agent` terminates it returns a
string (every failure kind, raised transport exceptions included, is
absorbed into a string outcome by construction of `callA2AAgentT`), and
that string is non-empty unless it is the verbatim text extracted from a
completed task whose first text part is the empty string. -/
theorem c2_result_nonempty_or_extracted
    (agent_url agent_id message_text : String) (b : RemoteBehavior) (fuel : Nat) (s : String)
    (h : callA2AAgent agent_url agent_id message_text b fuel = some s) :
    s ≠ "" ∨ ∃ i t, b.polls i = PollResponse.successTask t ∧
      t.status.state = TaskState.completed ∧ extractFromArtifacts t.artifacts = some s := by
  obtain ⟨send, polls⟩ := b
  cases send with
  | successTask t =>
    by_cases hid : t.id = ""
    · simp only [callA2AAgent, callA2AAgentT, hid, if_true, eq_self_iff_true,
        Option.some.injEq] at h
      subst h
      exact Or.inl (string_append_ne_empty_r _ _ (by decide))
    · simp only [callA2AAgent, callA2AAgentT, hid, if_false] at h
      exact pollLoopT_nonempty_or_extracted agent_id fuel polls s h
  | successMessage m =>
    simp only [callA2AAgent, callA2AAgentT, Option.some.injEq] at h
    subst h
    exact Or.inl (string_append_ne_empty_r _ _ (by decide))
  | rpcError m =>
    simp only [callA2AAgent, callA2AAgentT, Option.some.injEq] at h
    subst h
    exact Or.inl (string_append_ne_empty _ _ (string_append_ne_empty_r _ _ (by decide)))
  | other =>
    simp only [callA2AAgent, callA2AAgentT, Option.some.injEq] at h
    subst h
    exact Or.inl (string_append_ne_empty_r _ _ (by decide))
  | raised e =>
    simp only [callA2AAgent, callA2AAgentT, Option.some.injEq] at h
    subst h
    exact Or.inl (string_append_ne_empty _ _ (string_append_ne_empty_r _ _ (by decide)))

/-- Claim C2, witness: the amended theorem applied to a remote that
answers the send-message request with a JSON-RPC error "boom". -/
theorem c2_witness :
    "Error calling spanish_translator: boom" ≠ "" ∨
    ∃ i t, ({ send := SendResponse.rpcError "boom", polls := fun _ => PollResponse.other } :
        RemoteBehavior).polls i = PollResponse.successTask t ∧
      t.status.state = TaskState.completed ∧
      extractFromArtifacts t.artifacts = some "Error calling spanish_translator: boom" :=
  c2_result_nonempty_or_extracted "http://localhost:10010" "spanish_translator" "hello"
    { send := SendResponse.rpcError "boom", polls := fun _ => PollResponse.other } 0
    "Error calling spanish_translator: boom" rfl

/-- Claim C3: when the polls before index `i` are not decisive and poll
`i` reports the task completed, the call returns the text of the first
text-typed part of the order-preserving scan of all artifact parts, and
the fixed string "Task completed but no text artifact found." when that
scan finds no text part; all other parts are discarded. -/
theorem c3_completed_first_text_part
    (agent_url agent_id message_text : String) (b : RemoteBehavior)
    (t0 : Task) (hsend : b.send = SendResponse.successTask t0) (hid : t0.id ≠ "")
    (i : Nat) (t : Task)
    (hbefore : ∀ j, j < i → handlePoll agent_id (b.polls j) = none)
    (hpoll : b.polls i = PollResponse.successTask t)
    (hstate : t.status.state = TaskState.completed)
    (fuel : Nat) (hfuel : i < fuel) :
    callA2AAgent agent_url agent_id message_text b fuel =
      some ((firstTextPart (List.flatten (t.artifacts.map Artifact.parts))).getD
        "Task completed but no text artifact found.") := by
  have hdec : handlePoll agent_id (b.polls i) =
      some ((firstTextPart (List.flatten (t.artifacts.map Artifact.parts))).getD
        "Task completed but no text artifact found.") := by
    rw [hpoll]
    simp only [handlePoll, if_pos hstate, ← extractFromArtifacts_eq_flatten]
    cases extractFromArtifacts t.artifacts <;> rfl
  unfold callA2AAgent callA2AAgentT
  rw [hsend]
  dsimp only
  rw [if_neg hid, pollLoopT_decides agent_id i b.polls _ hbefore hdec fuel hfuel]

/-- Claim C3, witness: a task completed at the first poll whose first
artifact holds a file part then the text part "Bonjour", and whose second
artifact holds another text part: the call returns exactly "Bonjour". -/
theorem c3_witness :
    callA2AAgent "http://localhost:10011" "french_translator" "hello" bonjourBehavior 1 =
      some "Bonjour" :=
  c3_completed_first_text_part "http://localhost:10011" "french_translator" "hello"
    bonjourBehavior createdTask rfl (by decide) 0 _
    (fun j hj => absurd hj (Nat.not_lt_zero j)) rfl rfl 1 Nat.zero_lt_one

/-- Claim C4: a JSON-RPC error response to the send-message request makes
the call return a string containing the remote error message, with no
get-task request (indeed no wait and no poll event at all) ever issued. -/
theorem c4_send_error_no_poll (agent_url agent_id message_text : String)
    (m : String) (polls : Nat → PollResponse) (fuel : Nat) :
    callA2AAgentT agent_url agent_id message_text
        { send := SendResponse.rpcError m, polls := polls } fuel =
      (some ("Error calling " ++ agent_id ++ ": " ++ m), []) ∧
    (∃ pre post, "Error calling " ++ agent_id ++ ": " ++ m = pre ++ m ++ post) ∧
    Event.pollReq ∉ (callA2AAgentT agent_url agent_id message_text
        { send := SendResponse.rpcError m, polls := polls } fuel).2 := by
  refine ⟨rfl, ⟨"Error calling " ++ agent_id ++ ": ", "", by simp [String.append_assoc]⟩, ?_⟩
  simp [callA2AAgentT]

/-- Claim C5: a poll that finds the task in a failure terminal state
(failed, canceled or rejected) after non-decisive earlier polls makes the
call return the failure string built from the remote error message; the
returned string contains that message whenever it is present, and uses
the fixed fallback "Task failed without specific error." when absent. -/
theorem c5_failure_terminal_message
    (agent_url agent_id message_text : String) (b : RemoteBehavior)
    (t0 : Task) (hsend : b.send = SendResponse.successTask t0) (hid : t0.id ≠ "")
    (i : Nat) (t : Task)
    (hbefore : ∀ j, j < i → handlePoll agent_id (b.polls j) = none)
    (hpoll : b.polls i = PollResponse.successTask t)
    (hstate : t.status.state = TaskState.failed ∨ t.status.state = TaskState.canceled ∨
      t.status.state = TaskState.rejected)
    (fuel : Nat) (hfuel : i < fuel) :
    callA2AAgent agent_url agent_id message_text b fuel =
      some (agent_id ++ " task failed: " ++ errMsgOf t.status) ∧
    (∀ e, t.status.error = some e →
      ∃ pre post, agent_id ++ " task failed: " ++ errMsgOf t.status = pre ++ e.message ++ post) ∧
    (t.status.error = none → errMsgOf t.status = "Task failed without specific error.") := by
  have hnc : ¬ t.status.state = TaskState.completed := by
    rcases hstate with h | h | h <;> rw [h] <;> decide
  have hdec : handlePoll agent_id (b.polls i) =
      some (agent_id ++ " task failed: " ++ errMsgOf t.status) := by
    rw [hpoll]
    simp only [handlePoll, if_neg hnc, if_pos hstate]
  refine ⟨?_, ?_, ?_⟩
  · unfold callA2AAgent callA2AAgentT
    rw [hsend]
    dsimp only
    rw [if_neg hid, pollLoopT_decides agent_id i b.polls _ hbefore hdec fuel hfuel]
  · intro e he
    refine ⟨agent_id ++ " task failed: ", "", ?_⟩
    simp [errMsgOf, he, String.append_assoc]
  · intro he
    simp [errMsgOf, he]

/-- Claim C5, witness: a task failed with error message "quota exceeded":
the call returns the failure string, and that string contains
"quota exceeded". -/
theorem c5_witness :
    callA2AAgent "http://localhost:10010" "spanish_translator" "hello" quotaFailBehavior 1 =
      some "spanish_translator task failed: quota exceeded" ∧
    (∃ pre post, "spanish_translator task failed: quota exceeded" =
      pre ++ "quota exceeded" ++ post) := by
  have h := c5_failure_terminal_message "http://localhost:10010" "spanish_translator" "hello"
    quotaFailBehavior createdTask rfl (by decide) 0 _
    (fun j hj => absurd hj (Nat.not_lt_zero j)) rfl (Or.inl rfl) 1 Nat.zero_lt_one
  exact ⟨h.1, h.2.1 { message := "quota exceeded" } rfl⟩

/-- Claim C6: the first get-task response that is a JSON-RPC error or has
an unexpected shape ends the call at that iteration with a descriptive
error string, and the trace shows exactly `i + 1` poll requests: no
further poll is issued after the failed one. -/
theorem c6_poll_error_terminal
    (agent_url agent_id message_text : String) (b : RemoteBehavior)
    (t0 : Task) (hsend : b.send = SendResponse.successTask t0) (hid : t0.id ≠ "")
    (i : Nat)
    (hbefore : ∀ j, j < i → handlePoll agent_id (b.polls j) = none)
    (hbad : (∃ m, b.polls i = PollResponse.rpcError m) ∨ b.polls i = PollResponse.other)
    (fuel : Nat) (hfuel : i < fuel) :
    (∀ m, b.polls i = PollResponse.rpcError m →
      callA2AAgentT agent_url agent_id message_text b fuel =
        (some ("Error polling " ++ agent_id ++ " task: " ++ m),
          List.flatten (List.replicate (i + 1) [Event.wait, Event.pollReq]))) ∧
    (b.polls i = PollResponse.other →
      callA2AAgentT agent_url agent_id message_text b fuel =
        (some ("Unexpected polling response from " ++ agent_id ++ "."),
          List.flatten (List.replicate (i + 1) [Event.wait, Event.pollReq]))) ∧
    (callA2AAgentT agent_url agent_id message_text b fuel).2.count Event.pollReq = i + 1 := by
  have hrpc : ∀ m, b.polls i = PollResponse.rpcError m →
      callA2AAgentT agent_url agent_id message_text b fuel =
        (some ("Error polling " ++ agent_id ++ " task: " ++ m),
          List.flatten (List.replicate (i + 1) [Event.wait, Event.pollReq])) := by
    intro m hm
    have hdec : handlePoll agent_id (b.polls i) =
        some ("Error polling " ++ agent_id ++ " task: " ++ m) := by
      rw [hm]
      rfl
    unfold callA2AAgentT
    rw [hsend]
    dsimp only
    rw [if_neg hid, pollLoopT_decides agent_id i b.polls _ hbefore hdec fuel hfuel]
  have hoth : b.polls i = PollResponse.other →
      callA2AAgentT agent_url agent_id message_text b fuel =
        (some ("Unexpected polling response from " ++ agent_id ++ "."),
          List.flatten (List.replicate (i + 1) [Event.wait, Event.pollReq])) := by
    intro hm
    have hdec : handlePoll agent_id (b.polls i) =
        some ("Unexpected polling response from " ++ agent_id ++ ".") := by
      rw [hm]
      rfl
    unfold callA2AAgentT
    rw [hsend]
    dsimp only
    rw [if_neg hid, pollLoopT_decides agent_id i b.polls _ hbefore hdec fuel hfuel]
  refine ⟨hrpc, hoth, ?_⟩
  rcases hbad with ⟨m, hm⟩ | hm
  · rw [hrpc m hm]
    exact trace_pollReq_count (i + 1)
  · rw [hoth hm]
    exact trace_pollReq_count (i + 1)

/-- Claim C6, witness: first poll sees a working task, second poll hits a
JSON-RPC error "boom": the call ends there with the polling-error string,
after exactly two poll requests. -/
theorem c6_witness :
    callA2AAgentT "http://localhost:10010" "spanish_translator" "hello" pollErrorBehavior 2 =
      (some "Error polling spanish_translator task: boom",
        [Event.wait, Event.pollReq, Event.wait, Event.pollReq]) := by
  have h := c6_poll_error_terminal "http://localhost:10010" "spanish_translator" "hello"
    pollErrorBehavior createdTask rfl (by decide) 1
    (fun j hj => by
      have hj0 : j = 0 := Nat.lt_one_iff.mp hj
      subst hj0
      rfl)
    (Or.inl ⟨"boom", rfl⟩) 2 Nat.one_lt_two
  exact h.1 "boom" rfl

/-- Claim C7: the poll loop has no iteration bound: with the task created
and every poll reporting it submitted or working, the call decides within
no fuel bound at all (the loop never exits). -/
theorem c7_unbounded_polling
    (agent_url agent_id message_text : String) (b : RemoteBehavior)
    (t0 : Task) (hsend : b.send = SendResponse.successTask t0) (hid : t0.id ≠ "")
    (hw : ∀ i, ∃ t, b.polls i = PollResponse.successTask t ∧
      (t.status.state = TaskState.submitted ∨ t.status.state = TaskState.working)) :
    ∀ fuel, callA2AAgent agent_url agent_id message_text b fuel = none := by
  intro fuel
  unfold callA2AAgent callA2AAgentT
  rw [hsend]
  dsimp only
  rw [if_neg hid]
  apply pollLoopT_never_decides
  intro i
  obtain ⟨t, ht, hst⟩ := hw i
  rw [ht]
  exact handlePoll_nonterminal agent_id t hst

/-- Claim C7, witness: a remote that always reports the task working:
even with fuel 5 the call does not decide. -/
theorem c7_witness :
    callA2AAgent "http://localhost:10010" "spanish_translator" "hello"
      workingForeverBehavior 5 = none :=
  c7_unbounded_polling "http://localhost:10010" "spanish_translator" "hello"
    workingForeverBehavior createdTask rfl (by decide)
    (fun _ => ⟨workingTask, rfl, Or.inr rfl⟩) 5

/-- Claim C8: with the task working at the first two polls and completed
with the single text part "Hola" at the third, the call issues exactly
three get-task requests, each preceded by one wait, and returns exactly
"Hola". -/
theorem c8_two_working_polls_then_hola
    (agent_url agent_id message_text : String) (b : RemoteBehavior)
    (t0 w0 w1 t2 : Task)
    (hsend : b.send = SendResponse.successTask t0) (hid : t0.id ≠ "")
    (h0 : b.polls 0 = PollResponse.successTask w0) (hs0 : w0.status.state = TaskState.working)
    (h1 : b.polls 1 = PollResponse.successTask w1) (hs1 : w1.status.state = TaskState.working)
    (h2 : b.polls 2 = PollResponse.successTask t2) (hs2 : t2.status.state = TaskState.completed)
    (hart : t2.artifacts = [{ parts := [Part.text "Hola"] }])
    (fuel : Nat) (hfuel : 3 ≤ fuel) :
    callA2AAgentT agent_url agent_id message_text b fuel =
      (some "Hola",
        [Event.wait, Event.pollReq, Event.wait, Event.pollReq, Event.wait, Event.pollReq]) := by
  have hbefore : ∀ j, j < 2 → handlePoll agent_id (b.polls j) = none := by
    intro j hj
    interval_cases j
    · rw [h0]
      exact handlePoll_nonterminal agent_id w0 (Or.inr hs0)
    · rw [h1]
      exact handlePoll_nonterminal agent_id w1 (Or.inr hs1)
  have hdec : handlePoll agent_id (b.polls 2) = some "Hola" := by
    rw [h2]
    simp [handlePoll, hs2, hart, extractFromArtifacts, firstTextPart]
  unfold callA2AAgentT
  rw [hsend]
  dsimp only
  rw [if_neg hid, pollLoopT_decides agent_id 2 b.polls "Hola" hbefore hdec fuel
    (Nat.lt_of_lt_of_le (by decide) hfuel)]
  rfl

/-- Claim C8, witness: the scenario realized concretely by `holaBehavior`
with fuel 3. -/
theorem c8_witness :
    callA2AAgentT "http://localhost:10010" "spanish_translator" "hello" holaBehavior 3 =
      (some "Hola",
        [Event.wait, Event.pollReq, Event.wait, Event.pollReq, Event.wait, Event.pollReq]) :=
  c8_two_working_polls_then_hola "http://localhost:10010" "spanish_translator" "hello"
    holaBehavior createdTask workingTask workingTask _ rfl (by decide)
    rfl rfl rfl rfl rfl rfl rfl 3 (Nat.le_refl 3)

/-- Claim C9: the search and translate tool composes its two delegations
strictly sequentially: when the search delegation yields `sr` and `sr`
carries none of the error prefixes, the wrapped template string is passed
to the Spanish or to the French translation function according to the
case-insensitive target language, and the result dictionary maps
"translated_news" to the translation result. -/
theorem c9_sequential_composition
    (env : Env) (fuel : Nat) (search_query target_language original_user_query sr tr : String)
    (hsearch : callViaEnv env BRAVE_SEARCH_AGENT_URL BRAVE_SEARCH_AGENT_ID search_query fuel =
      some sr)
    (hE : pyStartsWith sr "Error" = false)
    (hU : pyStartsWith sr "Unexpected" = false)
    (hF : pyStartsWith sr "Failed" = false)
    (hlang : pyLower target_language = "spanish" ∨ pyLower target_language = "french")
    (htr : callViaEnv env
        (if pyLower target_language = "spanish" then SPANISH_AGENT_URL else FRENCH_AGENT_URL)
        (if pyLower target_language = "spanish" then SPANISH_AGENT_ID else FRENCH_AGENT_ID)
        ("News results for \x27" ++ search_query ++ "\x27: " ++ sr) fuel = some tr) :
    search_and_translate_news_function env fuel search_query target_language
        original_user_query = some [("translated_news", tr)] := by
  unfold search_and_translate_news_function
  rw [hsearch]
  dsimp only
  rw [hE, hU, hF]
  rw [if_neg (by decide : ¬((false || false || false) = true))]
  rcases hlang with hl | hl
  · rw [hl] at htr ⊢
    rw [if_pos (rfl : "spanish" = "spanish"), if_pos (rfl : "spanish" = "spanish")] at htr
    rw [if_pos (rfl : "spanish" = "spanish")]
    unfold translate_to_spanish_function
    rw [htr]
    rfl
  · have hns : ¬("french" = "spanish") := by decide
    rw [hl] at htr ⊢
    rw [if_neg hns, if_neg hns] at htr
    rw [if_neg hns, if_pos (rfl : "french" = "french")]
    unfold translate_to_french_function
    rw [htr]
    rfl

/-- Claim C9, witness: the chained stub scenario: the search stub answers
"AI breakthroughs", translators answer the uppercased input, target
language "Spanish": the result is the uppercased wrapped template. -/
theorem c9_witness :
    search_and_translate_news_function chainStubEnv 1 "AI news" "Spanish" "orig" =
      some [("translated_news", "NEWS RESULTS FOR \x27AI NEWS\x27: AI BREAKTHROUGHS")] :=
  c9_sequential_composition chainStubEnv 1 "AI news" "Spanish" "orig" "AI breakthroughs"
    "NEWS RESULTS FOR \x27AI NEWS\x27: AI BREAKTHROUGHS"
    rfl rfl rfl rfl (Or.inl rfl) rfl

/-- Claim C10: when the search delegation's string starts with "Error",
"Unexpected" or "Failed", the tool returns "Failed to get news: " followed
by that string, and its output is independent of the behaviors of every
agent other than the Brave Search one (no translation delegation can
influence it); the prefix test is the only error detection, so a genuine
result beginning with one of these words takes the same failure path. -/
theorem c10_error_prefix_skips_translation
    (env : Env) (fuel : Nat) (search_query target_language original_user_query sr : String)
    (hsearch : callViaEnv env BRAVE_SEARCH_AGENT_URL BRAVE_SEARCH_AGENT_ID search_query fuel =
      some sr)
    (hpre : pyStartsWith sr "Error" = true ∨ pyStartsWith sr "Unexpected" = true ∨
      pyStartsWith sr "Failed" = true) :
    search_and_translate_news_function env fuel search_query target_language
        original_user_query = some [("translated_news", "Failed to get news: " ++ sr)] ∧
    ∀ env2 : Env,
      (∀ text fuel2, callViaEnv env2 BRAVE_SEARCH_AGENT_URL BRAVE_SEARCH_AGENT_ID text fuel2 =
        callViaEnv env BRAVE_SEARCH_AGENT_URL BRAVE_SEARCH_AGENT_ID text fuel2) →
      search_and_translate_news_function env2 fuel search_query target_language
          original_user_query =
        search_and_translate_news_function env fuel search_query target_language
          original_user_query := by
  have hmain : ∀ env3 : Env,
      callViaEnv env3 BRAVE_SEARCH_AGENT_URL BRAVE_SEARCH_AGENT_ID search_query fuel =
        some sr →
      search_and_translate_news_function env3 fuel search_query target_language
          original_user_query = some [("translated_news", "Failed to get news: " ++ sr)] := by
    intro env3 hs3
    unfold search_and_translate_news_function
    rw [hs3]
    dsimp only
    rcases hpre with h | h | h
    · rw [h]
      rfl
    · rw [h]
      cases hE : pyStartsWith sr "Error" <;> rfl
    · rw [h]
      cases hE : pyStartsWith sr "Error" <;> cases hU : pyStartsWith sr "Unexpected" <;> rfl
  refine ⟨hmain env hsearch, ?_⟩
  intro env2 hagree
  rw [hmain env2 ((hagree search_query fuel).trans hsearch), hmain env hsearch]

/-- Claim C10, witness: a genuine search result "Failed banks recover"
(beginning with the word "Failed") is treated as a failure: no
translation happens and the result wraps the raw string. -/
theorem c10_witness :
    search_and_translate_news_function failedNewsEnv 1 "bank news" "Spanish" "orig" =
      some [("translated_news", "Failed to get news: Failed banks recover")] :=
  (c10_error_prefix_skips_translation failedNewsEnv 1 "bank news" "Spanish" "orig"
    "Failed banks recover" rfl (Or.inr (Or.inr rfl))).1

end A2ATools
